import Mathlib

/-!
Verification of `src/sequence_face_landmarks/sequence_face_landmarks.cpp`
(the `sfl` namespace: `SequenceFaceLandmarksImpl` and the free `render`
functions) via a shallow embedding.

Modelling conventions:
* `cv::Point`, `cv::Rect`, `sfl::Face`, `sfl::Frame` carry `int` fields and
  are embedded with `Int` fields.
* `float m_frame_scale` and the arithmetic on it are embedded over `Rat`;
  `std::round` (round half away from zero) becomes `roundQ`.
* The external dlib detector and shape predictor are oracles passed as
  function arguments; the image (`cv::Mat`) is embedded as its geometry
  (`cols`, `rows`, `channels`) plus an opaque pixel-content token.
* C++ exceptions become an `Except String` result (`addFrame`) or an
  explicit `Option String` error component (`setModel`, whose partial
  member mutations before a throw persist in the object).
* The protobuf layer is external library code: its messages are embedded
  as structures (`IOPoint` … `IOSequence`), and `ParseFromIstream`'s
  outcome is an input to `load` — a success flag plus whatever message
  content the parser produced (possibly partial on failure).
-/

namespace sfl

/-- Embeds `cv::Point` (integer 2D point) as used for landmarks. -/
structure Point where
  x : Int
  y : Int
deriving DecidableEq, Repr

/-- Embeds `cv::Rect` (integer origin plus size) as used for `Face::bbox`. -/
structure Rect where
  x : Int
  y : Int
  width : Int
  height : Int
deriving DecidableEq, Repr

/-- Embeds `sfl::Face`: a bounding box and an ordered landmark list. -/
structure Face where
  bbox : Rect
  landmarks : List Point
deriving DecidableEq, Repr

/-- Embeds `sfl::Frame`: the faces of one processed image plus the original
image's dimensions (`frame.cols`, `frame.rows`). -/
structure Frame where
  faces : List Face
  width : Int
  height : Int
deriving DecidableEq, Repr

/-- Embeds `dlib::point` (long coordinates) returned by the shape predictor. -/
structure DPoint where
  x : Int
  y : Int
deriving DecidableEq, Repr

/-- Embeds a `dlib::rectangle` through the accessors the code reads:
`left()`, `top()`, `width()`, `height()`. -/
structure DRect where
  left : Int
  top : Int
  width : Int
  height : Int
deriving DecidableEq, Repr

/-- Embeds the geometry of a `cv::Mat`: `cols`, `rows`, `channels()`, plus an
opaque token standing for the pixel contents. -/
structure Mat where
  cols : Int
  rows : Int
  channels : Nat
  data : Nat
deriving DecidableEq, Repr

/-- The two pixel-encoding paths of `addFrame`: `dlib::bgr_pixel` when
`frame.channels() == 3`, `unsigned char` (grayscale) otherwise. -/
inductive PixelPath where
  | bgr
  | gray
deriving DecidableEq, Repr

/-- Embeds the member state of `SequenceFaceLandmarksImpl`. The dlib
detector is recorded as set/unset, the deserialized `shape_predictor` as an
opaque token (`none` while still default-constructed). -/
structure SFLState where
  m_frames : List Frame
  m_frame_scale : Rat
  m_model_path : String
  m_detector : Option Unit
  m_pose_model : Option Nat
deriving DecidableEq, Repr

/-- Embeds the `SequenceFaceLandmarksImpl(float frame_scale)` constructor:
empty sequence, empty model path, default-constructed detector/predictor. -/
def initSession (frame_scale : Rat) : SFLState :=
  { m_frames := [], m_frame_scale := frame_scale, m_model_path := "",
    m_detector := none, m_pose_model := none }

/-- Embeds `size()`: `m_frames.size()`. -/
def SFLState.size (st : SFLState) : Nat :=
  st.m_frames.length

/-- Embeds `clear()`: `m_frames.clear()`. -/
def SFLState.clearSeq (st : SFLState) : SFLState :=
  { st with m_frames := [] }

/-- Embeds `operator[](size_t i)`: `return m_frames[i];`. The C++
`std::vector::operator[]` performs no bounds check; out of range it is
undefined behaviour, modelled here as yielding an unspecified (default)
`Frame` with no error condition raised. -/
def SFLState.opIndex (st : SFLState) (i : Nat) : Frame :=
  st.m_frames.getD i { faces := [], width := 0, height := 0 }

/-- Embeds `std::round` on `Rat`: round to nearest, halves away from zero. -/
def roundQ (q : Rat) : Int :=
  if 0 ≤ q then ⌊q + 1 / 2⌋ else ⌈q - 1 / 2⌉

/-- Embeds `setModel(modelPath)`. An empty path returns immediately. A
non-empty path first stores the path and installs the frontal face
detector; then `dlib::deserialize(modelPath) >> m_pose_model` runs, whose
failure (modelled through the `deser` oracle) throws after those member
mutations already happened. The result pairs the object's state with the
propagated exception message, if any. -/
def setModel (deser : String → Except String Nat) (st : SFLState)
    (modelPath : String) : SFLState × Option String :=
  if modelPath = "" then (st, none)
  else
    let st1 := { st with m_model_path := modelPath, m_detector := some () }
    match deser modelPath with
    | Except.ok m => ({ st1 with m_pose_model := some m }, none)
    | Except.error e => (st1, some e)

/-- Embeds the two-argument constructor
`SequenceFaceLandmarksImpl(modelPath, frame_scale)`, which calls
`setModel(modelPath)`. -/
def initSessionWithModel (deser : String → Except String Nat)
    (modelPath : String) (frame_scale : Rat) : SFLState × Option String :=
  setModel deser (initSession frame_scale) modelPath

/-- Embeds the scaling step of `extract_landmarks`: when
`m_frame_scale != 1.0f` the frame is resized by the external `cv::resize`
(the `resize` oracle); otherwise the original frame is used directly. -/
def scaledOf (resize : Mat → Rat → Mat) (scale : Rat) (frame : Mat) : Mat :=
  if scale ≠ 1 then resize frame scale else frame

/-- Embeds `dlib_obj_to_points`: copies each dlib part into a `cv::Point`
(the `(float)` cast of an in-range `long` is value-preserving). -/
def dlib_obj_to_points (obj : List DPoint) : List Point :=
  obj.map (fun p => { x := p.x, y := p.y })

/-- Embeds the per-landmark rescaling loop of `extract_landmarks`:
`(int)std::round(coordinate / m_frame_scale)` on each component. -/
def rescalePoint (scale : Rat) (p : Point) : Point :=
  { x := roundQ ((p.x : Rat) / scale), y := roundQ ((p.y : Rat) / scale) }

/-- Embeds the bounding-box assignment of `extract_landmarks`:
`(int)std::round(field / m_frame_scale)` on `left`, `top`, `width`,
`height` of the detected dlib rectangle. -/
def rescaleRect (scale : Rat) (r : DRect) : Rect :=
  { x := roundQ ((r.left : Rat) / scale),
    y := roundQ ((r.top : Rat) / scale),
    width := roundQ ((r.width : Rat) / scale),
    height := roundQ ((r.height : Rat) / scale) }

/-- Embeds `extract_landmarks<pixel_type>`: scale the frame, run the
detector on the scaled image, and for each detected rectangle run the
shape predictor, convert its parts, rescale landmarks and bounding box
back to original coordinates. The per-index fill of the pre-sized `faces`
vector is embedded as a map over the detector's list. -/
def extract_landmarks (resize : Mat → Rat → Mat)
    (det : Mat → PixelPath → List DRect)
    (pred : Mat → PixelPath → DRect → List DPoint)
    (scale : Rat) (frame : Mat) (px : PixelPath) : List Face :=
  let frame_scaled := scaledOf resize scale frame
  let faces := det frame_scaled px
  faces.map (fun r =>
    { bbox := rescaleRect scale r,
      landmarks := (dlib_obj_to_points (pred frame_scaled px r)).map
        (rescalePoint scale) })

/-- Embeds `addFrame(frame)`: throws when `m_model_path` is empty;
otherwise pushes a frame holding the image's `cols`/`rows` and fills it via
`extract_landmarks`, instantiated at `dlib::bgr_pixel` when
`frame.channels() == 3` and at `unsigned char` otherwise; returns the
appended frame. -/
def addFrame (resize : Mat → Rat → Mat)
    (det : Mat → PixelPath → List DRect)
    (pred : Mat → PixelPath → DRect → List DPoint)
    (st : SFLState) (frame : Mat) : Except String (SFLState × Frame) :=
  if st.m_model_path = "" then
    Except.error "A landmarks model file is not set!"
  else
    let px := if frame.channels = 3 then PixelPath.bgr else PixelPath.gray
    let fr : Frame :=
      { faces := extract_landmarks resize det pred st.m_frame_scale frame px,
        width := frame.cols, height := frame.rows }
    Except.ok ({ st with m_frames := st.m_frames ++ [fr] }, fr)

/-- Embeds the protobuf message `io::Point`. -/
structure IOPoint where
  x : Int
  y : Int
deriving DecidableEq, Repr

/-- Embeds the protobuf message `io::BoundingBox`. -/
structure IOBoundingBox where
  left : Int
  top : Int
  width : Int
  height : Int
deriving DecidableEq, Repr

/-- Embeds the protobuf message `io::Face`. -/
structure IOFace where
  bbox : IOBoundingBox
  landmarks : List IOPoint
deriving DecidableEq, Repr

/-- Embeds the protobuf message `io::Frame`. -/
structure IOFrame where
  width : Int
  height : Int
  faces : List IOFace
deriving DecidableEq, Repr

/-- Embeds the protobuf message `io::Sequence`. -/
structure IOSequence where
  frames : List IOFrame
deriving DecidableEq, Repr

/-- Embeds the outcome of `sequence.ParseFromIstream(&input)`: the boolean
result the parser returns and the message content it left behind — on
failure protobuf may leave a partially populated message. -/
structure ParseResult where
  success : Bool
  message : IOSequence
deriving DecidableEq, Repr

/-- Embeds the conversion loops of `save`: one `io::Frame` per frame, one
`io::Face` per face with its bounding box, one `io::Point` per landmark. -/
def saveConv (frames : List Frame) : IOSequence :=
  { frames := frames.map (fun frame =>
      { width := frame.width, height := frame.height,
        faces := frame.faces.map (fun face =>
          { bbox := { left := face.bbox.x, top := face.bbox.y,
                      width := face.bbox.width, height := face.bbox.height },
            landmarks := face.landmarks.map (fun p =>
              { x := p.x, y := p.y }) }) }) }

/-- Embeds `save(filePath)` up to the file boundary: the in-memory sequence
is converted to the `io::Sequence` message which
`SerializeToOstream` then writes to the (truncated, binary) file. -/
def save (st : SFLState) : IOSequence :=
  saveConv st.m_frames

/-- Embeds the conversion loops of `load`: reconstructs each `Frame`,
`Face` and landmark `cv::Point` from the parsed message. -/
def loadConv (s : IOSequence) : List Frame :=
  s.frames.map (fun io_frame =>
    { width := io_frame.width, height := io_frame.height,
      faces := io_frame.faces.map (fun io_face =>
        { bbox := { x := io_face.bbox.left, y := io_face.bbox.top,
                    width := io_face.bbox.width,
                    height := io_face.bbox.height },
          landmarks := io_face.landmarks.map (fun io_point =>
            { x := io_point.x, y := io_point.y }) }) })

/-- Embeds `load(filePath)`: `clear()` first, then `ParseFromIstream` runs
— its boolean result is ignored by the code — and the conversion loops
install whatever the parser left in the message. No failure is surfaced:
nothing in this path throws. -/
def load (st : SFLState) (pr : ParseResult) : SFLState :=
  { st.clearSeq with m_frames := loadConv pr.message }

/-- A drawing operation recorded against the mock surface: a `cv::line`
between two accessed points, a filled `cv::circle` at a point, or a
`cv::putText` of index `i` at a point. Each point access goes through
`List.get?`, so an out-of-bounds vector access surfaces as `none`. -/
inductive DrawOp where
  | line : Option Point → Option Point → DrawOp
  | circle : Option Point → DrawOp
  | text : Nat → Option Point → DrawOp
deriving DecidableEq, Repr

/-- Index pairs accessed by one C++ loop
`for (i = lo; i <= hi; ++i) cv::line(img, landmarks[i], landmarks[i-1], …)`. -/
def lineLoop (lo hi : Nat) : List (Nat × Nat) :=
  (List.range (hi + 1 - lo)).map (fun k => (lo + k, lo + k - 1))

/-- The index pairs of all `cv::line` calls of the 68-point branch of
`render`, in the code's order: jaw, nose bridge, right eyebrow, left
eyebrow, lower nose plus its closing line `(30,35)`, right eye plus
`(36,41)`, left eye plus `(42,47)`, outer mouth plus `(48,59)`, inner
mouth plus `(60,67)`. -/
def linePairs68 : List (Nat × Nat) :=
  lineLoop 1 16 ++ lineLoop 28 30 ++ lineLoop 18 21 ++ lineLoop 23 26 ++
  lineLoop 31 35 ++ [(30, 35)] ++ lineLoop 37 41 ++ [(36, 41)] ++
  lineLoop 43 47 ++ [(42, 47)] ++ lineLoop 49 59 ++ [(48, 59)] ++
  lineLoop 61 67 ++ [(60, 67)]

/-- Embeds `render(img, landmarks, drawLabels, color, thickness)` as the
list of drawing operations it performs on the image, in order. When
`landmarks.size() == 68` it draws the fixed line segments of
`linePairs68`; otherwise it draws a filled circle at `landmarks[i]` for
every `i` in `[0, 68)` regardless of the vector's size. When `drawLabels`
is set it labels each of the `landmarks.size()` points with its index. -/
def renderLandmarks (landmarks : List Point) (drawLabels : Bool) :
    List DrawOp :=
  (if landmarks.length = 68 then
    linePairs68.map (fun ij =>
      DrawOp.line (landmarks.get? ij.1) (landmarks.get? ij.2))
  else
    (List.range 68).map (fun i => DrawOp.circle (landmarks.get? i))) ++
  (if drawLabels then
    (List.range landmarks.length).map (fun i =>
      DrawOp.text i (landmarks.get? i))
  else [])

/-- The contour table of the canonical 68-point scheme as the code
realizes it, written out pair by pair (65 segments). -/
def canonical68Table : List (Nat × Nat) :=
  [(1, 0), (2, 1), (3, 2), (4, 3), (5, 4), (6, 5), (7, 6), (8, 7),
   (9, 8), (10, 9), (11, 10), (12, 11), (13, 12), (14, 13), (15, 14),
   (16, 15),
   (28, 27), (29, 28), (30, 29),
   (18, 17), (19, 18), (20, 19), (21, 20),
   (23, 22), (24, 23), (25, 24), (26, 25),
   (31, 30), (32, 31), (33, 32), (34, 33), (35, 34), (30, 35),
   (37, 36), (38, 37), (39, 38), (40, 39), (41, 40), (36, 41),
   (43, 42), (44, 43), (45, 44), (46, 45), (47, 46), (42, 47),
   (49, 48), (50, 49), (51, 50), (52, 51), (53, 52), (54, 53), (55, 54),
   (56, 55), (57, 56), (58, 57), (59, 58), (48, 59),
   (61, 60), (62, 61), (63, 62), (64, 63), (65, 64), (66, 65), (67, 66),
   (60, 67)]

/-- A concrete 68-point landmark list with distinct coordinates. -/
def ex68 : List Point :=
  (List.range 68).map (fun i => { x := (i : Int), y := 2 * (i : Int) })

/-- A concrete 3-point landmark list (a non-68 count). -/
def ex3 : List Point :=
  [{ x := 0, y := 0 }, { x := 1, y := 1 }, { x := 2, y := 2 }]

/-- A detector oracle reporting no faces. -/
def detNone : Mat → PixelPath → List DRect := fun _ _ => []

/-- A predictor oracle reporting no parts. -/
def predNone : Mat → PixelPath → DRect → List DPoint := fun _ _ _ => []

/-- A resize oracle that returns the image unchanged. -/
def resizeId : Mat → Rat → Mat := fun m _ => m

/-- A deserialization oracle that always throws. -/
def deserFail : String → Except String Nat :=
  fun _ => Except.error "deserialize error"

/-- A concrete 4-channel 64x48 image. -/
def mat4 : Mat := { cols := 64, rows := 48, channels := 4, data := 0 }

/-- A concrete session state with a bound model. -/
def boundSt : SFLState :=
  { m_frames := [], m_frame_scale := 1, m_model_path := "model.dat",
    m_detector := some (), m_pose_model := some 0 }

/-- A concrete non-empty session state: one frame with one face. -/
def exSt : SFLState :=
  SFLState.mk
    [Frame.mk [Face.mk (Rect.mk 1 2 3 4) [Point.mk 5 6, Point.mk 7 8]]
      640 480]
    1 "m" (some ()) (some 1)

/-- A concrete session state holding exactly one (empty) frame. -/
def oneSt : SFLState :=
  SFLState.mk [Frame.mk [] 7 9] 1 "m" (some ()) (some 1)

/-- Tests whether an `addFrame` outcome is the `m_model_path.empty()`
exception. -/
def throwsModelNotSet (r : Except String (SFLState × Frame)) : Bool :=
  match r with
  | Except.error msg => msg = "A landmarks model file is not set!"
  | Except.ok _ => false

/-! Theorems. -/

/-- The conversion loops of `load` invert the conversion loops of `save`
frame by frame, face by face, landmark by landmark. -/
theorem loadConv_saveConv (frames : List Frame) :
    loadConv (saveConv frames) = frames := by
  unfold loadConv saveConv
  simp only [List.map_map, Function.comp_def]
  induction frames with
  | nil => rfl
  | cons fr rest ih =>
    simp only [List.map_cons, ih, List.cons.injEq, and_true]
    cases fr with
    | mk faces w h =>
      simp only [Frame.mk.injEq, and_self, and_true, true_and]
      induction faces with
      | nil => rfl
      | cons fc rest2 ih2 =>
        simp only [List.map_cons, ih2, List.cons.injEq, and_true]
        cases fc with
        | mk bbox lms =>
          simp only [Face.mk.injEq, List.map_map, Function.comp_def,
            true_and]
          exact List.map_id lms

/-- C1: saving an in-memory sequence and loading the resulting artifact
back — with the external protobuf wire layer assumed faithful
(`par (ser x) = x`) — reconstructs the sequence field-for-field: same
frame list, hence same frame count, per-frame width/height, per-face
bounding box and landmark list, in identical order. -/
theorem C1_save_load_roundtrip {β : Type} (ser : IOSequence → β)
    (par : β → IOSequence) (hrt : ∀ x, par (ser x) = x)
    (st : SFLState) (ok : Bool) :
    (load st { success := ok, message := par (ser (save st)) }).m_frames =
      st.m_frames := by
  simp only [load, save, SFLState.clearSeq, hrt]
  exact loadConv_saveConv st.m_frames

/-- Witness for C1 at a concrete one-frame sequence with the identity
wire layer. -/
theorem C1_save_load_roundtrip_witness :
    (∀ x : IOSequence, id (id x) = x) ∧
    (load exSt { success := true,
                 message := id (id (save exSt)) }).m_frames =
      exSt.m_frames :=
  ⟨fun _ => rfl, C1_save_load_roundtrip id id (fun _ => rfl) exSt true⟩

/-- C2: the code ignores the boolean result of
`sequence.ParseFromIstream(&input)`; nothing in `load` throws. On a parse
failure that left one partially parsed 100x50 frame in the message, `load`
silently installs that frame instead of failing and leaving the sequence
empty. -/
theorem C2_load_ignores_parse_failure :
    (load (initSession 1)
        { success := false,
          message := { frames := [{ width := 100, height := 50,
                                    faces := [] }] } }).m_frames =
      [{ faces := [], width := 100, height := 50 }] := rfl

/-- Counterexample to C3 as stated: on a concrete 68-point list the code
draws 65 line segments, not the 56 (= 15+3+3+2+5+5+5+11+7) the claim's
per-feature counts add up to — each count in the claim is one short. -/
theorem C3_counterexample :
    (renderLandmarks ex68 false).length ≠
      15 + 3 + 3 + 2 + 5 + 5 + 5 + 11 + 7 := by decide

/-- C3 (amended): on any 68-point list, `render` draws exactly the 65
segments of `canonical68Table` — jaw 16 segments over points 0–16, nose
bridge 3 over 27–30, each eyebrow 4 (17–21, 22–26), lower nose 5 plus the
closing segment (30,35), each eye 5 plus closing ((36,41), (42,47)),
outer mouth 11 plus closing (48,59), inner mouth 7 plus closing (60,67) —
and no others. -/
theorem C3_render68_topology (landmarks : List Point)
    (h : landmarks.length = 68) :
    renderLandmarks landmarks false =
      canonical68Table.map (fun ij =>
        DrawOp.line (landmarks.get? ij.1) (landmarks.get? ij.2)) := by
  have ht : linePairs68 = canonical68Table := by decide
  simp [renderLandmarks, h, ht]

/-- Witness for C3 at the concrete 68-point list `ex68`. -/
theorem C3_render68_topology_witness :
    ex68.length = 68 ∧
    renderLandmarks ex68 false =
      canonical68Table.map (fun ij =>
        DrawOp.line (ex68.get? ij.1) (ex68.get? ij.2)) :=
  ⟨by decide, C3_render68_topology ex68 (by decide)⟩

/-- Counterexample to C4 as stated: on a concrete 3-point list the
fallback branch still performs all 68 accesses (68 circle draws, not 3),
and the access at index 3 ≥ length 3 is out of bounds (recorded as
`none`). -/
theorem C4_counterexample :
    (renderLandmarks ex3 false).length = 68 ∧
    DrawOp.circle none ∈ renderLandmarks ex3 false := by decide

/-- C4 (amended): for any landmark list whose length is not 68, the
fallback branch draws a filled marker at `landmarks[i]` for every
`i ∈ [0, 68)` unconditionally: the first 68 points when at least 68
exist, and out-of-bounds accesses (indices ≥ length, recorded as `none`)
when fewer exist; it does not clamp to the list's length. -/
theorem C4_render_fallback (landmarks : List Point)
    (h : landmarks.length ≠ 68) :
    renderLandmarks landmarks false =
      (List.range 68).map (fun i => DrawOp.circle (landmarks.get? i)) := by
  simp [renderLandmarks, h]

/-- Witness for C4 at the concrete 3-point list `ex3`. -/
theorem C4_render_fallback_witness :
    ex3.length ≠ 68 ∧
    renderLandmarks ex3 false =
      (List.range 68).map (fun i => DrawOp.circle (ex3.get? i)) :=
  ⟨by decide, C4_render_fallback ex3 (by decide)⟩

/-- Counterexample to C5 as stated: with a model bound, `addFrame` on a
4-channel image succeeds (through the grayscale branch) instead of
failing with an unsupported-image-format condition. -/
theorem C5_counterexample :
    addFrame resizeId detNone predNone boundSt mat4 =
      Except.ok
        ({ boundSt with m_frames := [{ faces := [], width := 64,
                                       height := 48 }] },
         { faces := [], width := 64, height := 48 }) := by
  simp [addFrame, boundSt, mat4, extract_landmarks, detNone, scaledOf]

/-- C5 (amended): `addFrame` performs no channel-count validation: a
channel count of 3 selects the BGR instantiation, and every other channel
count — including 2 or 4, not just 1 — is processed through the grayscale
instantiation, completing without any error once a model is bound. -/
theorem C5_channels_no_check (resize : Mat → Rat → Mat)
    (det : Mat → PixelPath → List DRect)
    (pred : Mat → PixelPath → DRect → List DPoint)
    (st : SFLState) (frame : Mat)
    (hm : st.m_model_path ≠ "") (hc : frame.channels ≠ 3) :
    addFrame resize det pred st frame =
      Except.ok
        ({ st with m_frames := st.m_frames ++
            [{ faces := extract_landmarks resize det pred
                 st.m_frame_scale frame PixelPath.gray,
               width := frame.cols, height := frame.rows }] },
         { faces := extract_landmarks resize det pred
             st.m_frame_scale frame PixelPath.gray,
           width := frame.cols, height := frame.rows }) := by
  simp [addFrame, hm, hc]

/-- Witness for C5 (amended) at a 4-channel image and a bound session. -/
theorem C5_channels_no_check_witness :
    boundSt.m_model_path ≠ "" ∧ mat4.channels ≠ 3 ∧
    addFrame resizeId detNone predNone boundSt mat4 =
      Except.ok
        ({ boundSt with m_frames := boundSt.m_frames ++
            [{ faces := extract_landmarks resizeId detNone predNone
                 boundSt.m_frame_scale mat4 PixelPath.gray,
               width := mat4.cols, height := mat4.rows }] },
         { faces := extract_landmarks resizeId detNone predNone
             boundSt.m_frame_scale mat4 PixelPath.gray,
           width := mat4.cols, height := mat4.rows }) :=
  ⟨by decide, by decide,
   C5_channels_no_check resizeId detNone predNone boundSt mat4
     (by decide) (by decide)⟩

/-- C6: with no model bound (`m_model_path` empty) `addFrame` throws the
"A landmarks model file is not set!" exception before any mutation, so no
partial state is appended; a freshly constructed session is unbound and
has `size() = 0`. -/
theorem C6_unbound_model (resize : Mat → Rat → Mat)
    (det : Mat → PixelPath → List DRect)
    (pred : Mat → PixelPath → DRect → List DPoint)
    (st : SFLState) (frame : Mat) (h : st.m_model_path = "") :
    addFrame resize det pred st frame =
      Except.error "A landmarks model file is not set!" ∧
    (initSession st.m_frame_scale).m_model_path = "" ∧
    (initSession st.m_frame_scale).size = 0 := by
  refine ⟨?_, rfl, rfl⟩
  simp [addFrame, h]

/-- Witness for C6 at a freshly constructed session with scale 1. -/
theorem C6_unbound_model_witness :
    (initSession 1).m_model_path = "" ∧
    (addFrame resizeId detNone predNone (initSession 1) mat4 =
        Except.error "A landmarks model file is not set!" ∧
      (initSession (initSession 1).m_frame_scale).m_model_path = "" ∧
      (initSession (initSession 1).m_frame_scale).size = 0) :=
  ⟨rfl, C6_unbound_model resizeId detNone predNone (initSession 1) mat4 rfl⟩

/-- The embedding of `std::round` maps every integer to itself. -/
theorem roundQ_intCast (n : Int) : roundQ (n : Rat) = n := by
  unfold roundQ
  by_cases h : (0 : Rat) ≤ (n : Rat)
  · rw [if_pos h, add_comm, Int.floor_add_int]
    norm_num
  · rw [if_neg h, sub_eq_add_neg, add_comm, Int.ceil_add_int]
    norm_num

/-- The embedding of `std::round` rounds to a nearest integer: the result
differs from the argument by at most one half. -/
theorem roundQ_near (q : Rat) : |q - (roundQ q : Rat)| ≤ 1 / 2 := by
  unfold roundQ
  by_cases h : (0 : Rat) ≤ q
  · rw [if_pos h]
    have h1 : ((⌊q + 1 / 2⌋ : Int) : Rat) ≤ q + 1 / 2 := Int.floor_le _
    have h2 : q + 1 / 2 < (⌊q + 1 / 2⌋ : Int) + 1 := Int.lt_floor_add_one _
    rw [abs_le]
    constructor <;> linarith
  · rw [if_neg h]
    have h1 : q - 1 / 2 ≤ ((⌈q - 1 / 2⌉ : Int) : Rat) := Int.le_ceil _
    have h2 : ((⌈q - 1 / 2⌉ : Int) : Rat) < q - 1 / 2 + 1 :=
      Int.ceil_lt_add_one _
    rw [abs_le]
    constructor <;> linarith

/-- The extraction loop written as one map: every bounding-box field and
every landmark coordinate of the output is `roundQ` of the corresponding
scaled-space value divided by the scale factor. -/
theorem extract_landmarks_as_map (resize : Mat → Rat → Mat)
    (det : Mat → PixelPath → List DRect)
    (pred : Mat → PixelPath → DRect → List DPoint)
    (scale : Rat) (frame : Mat) (px : PixelPath) :
    extract_landmarks resize det pred scale frame px =
      (det (scaledOf resize scale frame) px).map (fun r =>
        Face.mk
          (Rect.mk (roundQ ((r.left : Rat) / scale))
            (roundQ ((r.top : Rat) / scale))
            (roundQ ((r.width : Rat) / scale))
            (roundQ ((r.height : Rat) / scale)))
          ((pred (scaledOf resize scale frame) px r).map (fun p =>
            Point.mk (roundQ ((p.x : Rat) / scale))
              (roundQ ((p.y : Rat) / scale))))) := by
  unfold extract_landmarks rescaleRect rescalePoint dlib_obj_to_points
  simp [List.map_map, Function.comp_def]

/-- With scale factor `1` the extraction result carries the detector's and
predictor's raw coordinates unchanged, read off the unresized frame. -/
theorem extract_landmarks_scale_one (resize : Mat → Rat → Mat)
    (det : Mat → PixelPath → List DRect)
    (pred : Mat → PixelPath → DRect → List DPoint)
    (frame : Mat) (px : PixelPath) :
    extract_landmarks resize det pred 1 frame px =
      (det frame px).map (fun r =>
        Face.mk (Rect.mk r.left r.top r.width r.height)
          ((pred frame px r).map (fun p => Point.mk p.x p.y))) := by
  rw [extract_landmarks_as_map]
  have hs : scaledOf resize 1 frame = frame := by simp [scaledOf]
  rw [hs]
  simp [div_one, roundQ_intCast]

/-- C7: every landmark coordinate and every bounding-box field is
converted from scaled to original coordinates as `roundQ` of the value
divided by the scale factor — one nearest-integer rounding function
(halves away from zero, as `std::round`) used for all fields; and with
scale factor `1` the resize step is skipped entirely (the result does not
depend on the resize routine at all) and every coordinate comes through
unchanged. -/
theorem C7_rescale_rounding :
    (∀ (resize1 resize2 : Mat → Rat → Mat)
       (det : Mat → PixelPath → List DRect)
       (pred : Mat → PixelPath → DRect → List DPoint)
       (frame : Mat) (px : PixelPath),
      extract_landmarks resize1 det pred 1 frame px =
        extract_landmarks resize2 det pred 1 frame px) ∧
    (∀ (resize : Mat → Rat → Mat)
       (det : Mat → PixelPath → List DRect)
       (pred : Mat → PixelPath → DRect → List DPoint)
       (frame : Mat) (px : PixelPath),
      extract_landmarks resize det pred 1 frame px =
        (det frame px).map (fun r =>
          Face.mk (Rect.mk r.left r.top r.width r.height)
            ((pred frame px r).map (fun p => Point.mk p.x p.y)))) ∧
    (∀ (resize : Mat → Rat → Mat)
       (det : Mat → PixelPath → List DRect)
       (pred : Mat → PixelPath → DRect → List DPoint)
       (scale : Rat) (frame : Mat) (px : PixelPath),
      extract_landmarks resize det pred scale frame px =
        (det (scaledOf resize scale frame) px).map (fun r =>
          Face.mk
            (Rect.mk (roundQ ((r.left : Rat) / scale))
              (roundQ ((r.top : Rat) / scale))
              (roundQ ((r.width : Rat) / scale))
              (roundQ ((r.height : Rat) / scale)))
            ((pred (scaledOf resize scale frame) px r).map (fun p =>
              Point.mk (roundQ ((p.x : Rat) / scale))
                (roundQ ((p.y : Rat) / scale)))))) ∧
    (∀ q : Rat, |q - (roundQ q : Rat)| ≤ 1 / 2) ∧
    roundQ (1 / 2) = 1 ∧ roundQ (-(1 / 2)) = -1 := by
  refine ⟨?_, extract_landmarks_scale_one, extract_landmarks_as_map,
    roundQ_near, ?_, ?_⟩
  · intro resize1 resize2 det pred frame px
    rw [extract_landmarks_scale_one, extract_landmarks_scale_one]
  · norm_num [roundQ]
  · norm_num [roundQ]
    rw [show ((-1 : Rat)) = ((-1 : Int) : Rat) by norm_num,
      Int.ceil_intCast]

/-- Counterexample to C8 as stated: on an empty sequence, indexed access
at 5 raises no bounds condition — `operator[]` forwards to the unchecked
`std::vector::operator[]` and simply yields an (unspecified, here
default-modelled) frame. -/
theorem C8_counterexample :
    (initSession 1).size = 0 ∧
    (initSession 1).opIndex 5 = { faces := [], width := 0, height := 0 } :=
  ⟨rfl, rfl⟩

/-- C8 (amended): `operator[]` performs no bounds check: within
`[0, size)` it returns the `i`-th stored frame, and out of range it is
`std::vector` undefined behaviour with no bounds condition raised. -/
theorem C8_opIndex_unchecked (st : SFLState) (i : Nat) (h : i < st.size) :
    st.opIndex i = st.m_frames.get ⟨i, h⟩ := by
  unfold SFLState.opIndex
  rw [List.getD_eq_getElem _ _ h]
  simp

/-- Witness for C8 (amended) at a one-frame sequence. -/
theorem C8_opIndex_unchecked_witness :
    0 < oneSt.size ∧ oneSt.opIndex 0 = Frame.mk [] 7 9 :=
  ⟨by decide, (C8_opIndex_unchecked oneSt 0 (by decide)).trans rfl⟩

/-- C9: `setModel` with an empty path returns immediately: the whole
session state — stored model path, detector, predictor, frames — is left
exactly as it was, and no error is raised; in particular an existing
binding is not cleared. -/
theorem C9_setModel_empty_noop (deser : String → Except String Nat)
    (st : SFLState) :
    setModel deser st "" = (st, none) := by
  simp [setModel]

/-- C10: when `setModel` is called with a non-empty path and
`dlib::deserialize` then throws, the stored model path was already
updated (and the predictor member was not), the exception propagates, and
a subsequent `addFrame` no longer fails the `m_model_path.empty()` check
— binding is not atomic on error. -/
theorem C10_setModel_nonatomic (deser : String → Except String Nat)
    (st : SFLState) (modelPath : String) (e : String)
    (resize : Mat → Rat → Mat) (det : Mat → PixelPath → List DRect)
    (pred : Mat → PixelPath → DRect → List DPoint) (frame : Mat)
    (hne : modelPath ≠ "") (hf : deser modelPath = Except.error e) :
    (setModel deser st modelPath).1.m_model_path = modelPath ∧
    (setModel deser st modelPath).2 = some e ∧
    (setModel deser st modelPath).1.m_pose_model = st.m_pose_model ∧
    throwsModelNotSet
      (addFrame resize det pred (setModel deser st modelPath).1 frame) =
      false := by
  simp [setModel, hne, hf, addFrame, throwsModelNotSet]

/-- Witness for C10 with a deserialization oracle that always throws. -/
theorem C10_setModel_nonatomic_witness :
    "m.dat" ≠ "" ∧
    deserFail "m.dat" = Except.error "deserialize error" ∧
    ((setModel deserFail (initSession 1) "m.dat").1.m_model_path =
        "m.dat" ∧
      (setModel deserFail (initSession 1) "m.dat").2 =
        some "deserialize error" ∧
      (setModel deserFail (initSession 1) "m.dat").1.m_pose_model =
        (initSession 1).m_pose_model ∧
      throwsModelNotSet (addFrame resizeId detNone predNone
        (setModel deserFail (initSession 1) "m.dat").1 mat4) = false) :=
  ⟨by decide, rfl,
   C10_setModel_nonatomic deserFail (initSession 1) "m.dat"
     "deserialize error" resizeId detNone predNone mat4 (by decide) rfl⟩

end sfl
